import Mathlib

/-!
Verification of the schedule query engine `buscar_horarios` of `src/Main.py`
(repository HorariosDicetours).

Modelling conventions:
* A schedule-store row (`TripRecord`) is a `Trip` with the four columns the
  engine reads: `Línea` (line), `Dirección` (direction), `Salida` (departure
  time-of-day), `Llegada` (arrival time-of-day).
* All time values are seconds since midnight as `Nat`.  The source combines
  each time-of-day with today's date (`datetime.combine(datetime.today(), t)`,
  lines 88-89 and 106) and compares against `datetime.now()`; since every
  instant lives on the same day, comparison of the combined instants is
  exactly comparison of the time-of-day values, and the current instant is
  passed in as a `Nat` parameter `now`.
* `pandas.sort_values` (default `kind='quicksort'`) sorts by the given key
  without a guaranteed tie order; the model uses the executable
  `List.insertionSort` on key comparisons.  Theorems about order are stated
  as key-monotonicity (`List.Pairwise`), which holds independently of how
  ties are broken.
* `DataFrame.head(n)` for an integer `n` returns the first `n` rows when
  `n ≥ 0` and all but the last `|n|` rows when `n < 0` (`pandasHead`).
* `Series.str.contains(pat)` (line 74) interprets `pat` as a regular
  expression (`re.search`).  The model `reSearch` implements the fragment of
  Python regular expressions consisting of literal characters plus the `.`
  wildcard; characters listed in `regexSpecialChar` other than `.` are not
  modelled, and theorems that speak about general patterns carry the
  hypothesis `regexLiteralStr` restricting the pattern to the modelled
  fragment.
* Python `str.lower` is modelled by `lowerStr` (ASCII case folding), and
  string operations are implemented over the underlying character lists so
  that every definition evaluates on concrete inputs.
-/

/-- One row of the schedule store, with the four columns read by
`buscar_horarios`: `Línea`, `Dirección`, `Salida`, `Llegada`
(times as seconds since midnight). -/
structure Trip where
  linea : String
  direccion : String
  salida : Nat
  llegada : Nat
deriving Repr, DecidableEq

/-- The typed view of the intent dictionary after the scalar-or-list
normalization of `Main.py` lines 67-70: the keys `direccion`, `hora`,
`accion`, `condicion_horario`, `cantidad`, `listado_completo`,
`micro_linea` read on lines 58-64, with `None` as `none` and the
`listado_completo` default `False`.  (The dynamic, untyped view used by the
source is `DynIntent` below, bridged to this one.) -/
structure Intent where
  direccion : Option String
  hora : Option String
  accion : Option String
  condicion_horario : Option String
  cantidad : Option Int
  listado_completo : Bool
  micro_linea : Option String
deriving Repr, DecidableEq

/-- ASCII lowering of one character (`str.lower`). -/
def lowerChar (c : Char) : Char :=
  if 65 ≤ c.toNat ∧ c.toNat ≤ 90 then Char.ofNat (c.toNat + 32) else c

/-- Python `str.lower` (ASCII case folding). -/
def lowerStr (s : String) : String := ⟨s.data.map lowerChar⟩

/-- Python truthiness of an optional string (`if direccion:` /
`if micro_linea:`): `None` and the empty string are falsy. -/
def optTruthy : Option String → Bool
  | some s => !s.data.isEmpty
  | none => false

/-- `DataFrame.head` for an integer argument: the first `n` rows when
`0 ≤ n`, all but the last `|n|` rows when `n < 0`. -/
def pandasHead (n : Int) (l : List Trip) : List Trip :=
  if 0 ≤ n then l.take n.toNat else l.take (l.length - (-n).toNat)

/-- One field of a strict `%H:%M` parse (`datetime.strptime`, line 106):
one or two ASCII digits whose value is at most `bound`. -/
def parseField (cs : List Char) (bound : Nat) : Option Nat :=
  if (cs.length = 1 || cs.length = 2) && cs.all Char.isDigit then
    let v := cs.foldl (fun a c => a * 10 + (c.toNat - 48)) 0
    if v ≤ bound then some v else none
  else none

/-- Split a character list at every `:` (so `"15:25"` gives the two fields
of the `%H:%M` format and any other number of fields fails the parse). -/
def splitOnColon : List Char → List (List Char)
  | [] => [[]]
  | c :: cs =>
    let r := splitOnColon cs
    if c = ':' then [] :: r
    else
      match r with
      | [] => [[c]]
      | x :: xs => (c :: x) :: xs

/-- Strict `datetime.strptime(hora_str, '%H:%M')` of line 106, returning the
parsed time as seconds since midnight, or `none` where the source raises the
`ValueError` caught on line 157: the string must be `H:M` with `H` one or
two digits valued at most 23 and `M` one or two digits valued at most 59,
with nothing else before, between or after. -/
def parseHM (s : String) : Option Nat :=
  match splitOnColon s.data with
  | [h, m] =>
    match parseField h 23, parseField m 59 with
    | some hv, some mv => some (hv * 3600 + mv * 60)
    | _, _ => none
  | _ => none

/-- Key-ascending comparison used to model `sort_values(by=key)`. -/
def byKey (key : Trip → Nat) : Trip → Trip → Prop := fun a b => key a ≤ key b

instance (key : Trip → Nat) : DecidableRel (byKey key) :=
  fun a b => inferInstanceAs (Decidable (key a ≤ key b))

instance (key : Trip → Nat) : IsTotal Trip (byKey key) :=
  ⟨fun a b => Nat.le_total (key a) (key b)⟩

instance (key : Trip → Nat) : IsTrans Trip (byKey key) :=
  ⟨fun _ _ _ h1 h2 => Nat.le_trans h1 h2⟩

/-- Key-descending comparison, modelling `sort_values(..., ascending=False)`
(line 119). -/
def byKeyDesc (key : Trip → Nat) : Trip → Trip → Prop := fun a b => key b ≤ key a

instance (key : Trip → Nat) : DecidableRel (byKeyDesc key) :=
  fun a b => inferInstanceAs (Decidable (key b ≤ key a))

instance (key : Trip → Nat) : IsTotal Trip (byKeyDesc key) :=
  ⟨fun a b => Nat.le_total (key b) (key a)⟩

instance (key : Trip → Nat) : IsTrans Trip (byKeyDesc key) :=
  ⟨fun _ _ _ h1 h2 => Nat.le_trans h2 h1⟩

/-- `sort_values` ascending by a numeric key. -/
def sortByKey (key : Trip → Nat) (l : List Trip) : List Trip :=
  l.insertionSort (byKey key)

/-- `sort_values` descending by a numeric key. -/
def sortByKeyDesc (key : Trip → Nat) (l : List Trip) : List Trip :=
  l.insertionSort (byKeyDesc key)

/-- The `diff` column of lines 133 and 147: absolute difference between the
arrival instant and the requested instant `T`. -/
def diffKey (T : Nat) (t : Trip) : Nat := ((t.llegada : Int) - (T : Int)).natAbs

/-- Does a pattern (as a character list) match at the very start of the
text?  Patterns are the modelled regex fragment: `.` matches any single
character, every other character matches itself. -/
def reMatchHere : List Char → List Char → Bool
  | [], _ => true
  | _ :: _, [] => false
  | p :: ps, c :: cs => (p = '.' || p = c) && reMatchHere ps cs

/-- `re.search` over the modelled regex fragment: the pattern matches at
some position of the text.  This is the semantics of
`Series.str.contains(pat)` (line 74) for patterns made of literal
characters and the `.` wildcard. -/
def reSearch (pat : List Char) : List Char → Bool
  | [] => reMatchHere pat []
  | c :: cs => reMatchHere pat (c :: cs) || reSearch pat cs

/-- Characters that are special in Python regular expressions, given by
code point: dot 46, caret 94, dollar 36, star 42, plus 43, question 63,
bar 124, parentheses 40 41, square brackets 91 93, backslash 92, and the
two curly braces 123 125.  A pattern avoiding all of them is matched
literally by `re.search`. -/
def regexSpecialChar (c : Char) : Bool :=
  c.toNat = 46 || c.toNat = 94 || c.toNat = 36 || c.toNat = 42 || c.toNat = 43 ||
  c.toNat = 63 || c.toNat = 124 || c.toNat = 40 || c.toNat = 41 || c.toNat = 91 ||
  c.toNat = 93 || c.toNat = 92 || c.toNat = 123 || c.toNat = 125

/-- The pattern contains no regex metacharacter, so `re.search` degenerates
to plain substring search. -/
def regexLiteralStr (s : String) : Bool := s.data.all (fun c => !regexSpecialChar c)

/-- Does the second list occur as a prefix of the first?  (Helper for the
spec-side plain-substring predicate.) -/
def startsWithChars : List Char → List Char → Bool
  | _, [] => true
  | [], _ :: _ => false
  | a :: as, b :: bs => a = b && startsWithChars as bs

/-- Does `sub` occur as a contiguous run inside `l`? -/
def hasSubChars : List Char → List Char → Bool
  | [], sub => sub.isEmpty
  | a :: as, sub => startsWithChars (a :: as) sub || hasSubChars as sub

/-- Spec-side predicate, following the spec's words: the line "contains
`lineFilter` as a substring".  Used to compare the spec's substring reading
against the source's regex `str.contains`. -/
def strContainsSub (sub s : String) : Bool := hasSubChars s.data sub.data

/-- The schedule query engine: shallow embedding of `buscar_horarios`
(`src/Main.py` lines 43-160) over the typed intent view.

* line 54: empty store short-circuit;
* lines 73-80: line-filter branch — regex `str.contains` on the lowered
  line, optional exact lowered direction match, sort by `Salida`;
* lines 82-90: direction required, exact lowered direction match, and the
  departed-trip exclusion `salida_datetime > datetime.now()` (strict);
* lines 93-101: `hora == 'ahora'` branch — sort by departure, return all /
  `head(cantidad)` / `head(3)`;
* lines 104-158: literal-time branch — strict `%H:%M` parse (a failed parse
  is the caught `ValueError`, empty result), then the `cerca`, `antes_de`,
  `despues_de` sub-branches;
* line 160: every remaining case returns the empty frame. -/
def buscar_horarios (df : List Trip) (now : Nat) (i : Intent) : List Trip :=
  if df.isEmpty then [] else
  if optTruthy i.micro_linea then
    let ml := lowerStr (i.micro_linea.getD "")
    let df1 := df.filter (fun t => reSearch ml.data (lowerStr t.linea).data)
    let df2 :=
      if optTruthy i.direccion then
        df1.filter (fun t => lowerStr t.direccion = lowerStr (i.direccion.getD ""))
      else df1
    sortByKey (fun t => t.salida) df2
  else if !optTruthy i.direccion then []
  else
    let pool0 := df.filter (fun t => lowerStr t.direccion = lowerStr (i.direccion.getD ""))
    let pool := pool0.filter (fun t => now < t.salida)
    if i.hora = some "ahora" then
      let proximos := sortByKey (fun t => t.salida) pool
      if i.listado_completo then proximos
      else
        match i.cantidad with
        | some n => pandasHead n proximos
        | none => proximos.take 3
    else if optTruthy i.hora then
      match parseHM (i.hora.getD "") with
      | none => []
      | some T =>
        if i.condicion_horario = some "cerca" then
          let micros_antes := pool.filter (fun t => t.llegada ≤ T)
          let micros_despues := pool.filter (fun t => T < t.llegada)
          let r1 :=
            if micros_antes.isEmpty then []
            else (sortByKeyDesc (fun t => t.llegada) micros_antes).take 1
          let r2 :=
            if micros_despues.isEmpty then []
            else (sortByKey (fun t => t.llegada) micros_despues).take 1
          sortByKey (fun t => t.llegada) (r1 ++ r2)
        else if i.condicion_horario = some "antes_de" then
          let cercanos := sortByKey (diffKey T) (pool.filter (fun t => t.llegada < T))
          if i.listado_completo then cercanos
          else
            match i.cantidad with
            | some n => pandasHead n cercanos
            | none => cercanos
        else if i.condicion_horario = some "despues_de" then
          let cercanos := sortByKey (diffKey T) (pool.filter (fun t => T ≤ t.llegada))
          if i.listado_completo then cercanos
          else
            match i.cantidad with
            | some n => pandasHead n cercanos
            | none => cercanos
        else []
    else []

/-- The direction pool of lines 85-90: rows matching the direction
case-insensitively, restricted to trips that have not yet departed. -/
def dirPool (df : List Trip) (now : Nat) (d : String) : List Trip :=
  (df.filter (fun t => lowerStr t.direccion = lowerStr d)).filter (fun t => now < t.salida)

/-! ### Basic lemmas about the helper operations -/

theorem string_eq_empty_iff (d : String) : d = "" ↔ d.data = [] := by
  constructor
  · intro h
    subst h
    rfl
  · intro h
    cases d with
    | mk data =>
      rw [show data = [] from h]

theorem optTruthy_some_iff (d : String) : optTruthy (some d) = true ↔ d ≠ "" := by
  show (!d.data.isEmpty) = true ↔ d ≠ ""
  rw [Bool.not_eq_true']
  constructor
  · intro h hd
    subst hd
    simp at h
  · intro h
    cases hd : d.data with
    | nil => exact absurd ((string_eq_empty_iff d).mpr hd) h
    | cons c cs => simp [hd]

theorem mem_sortByKey {key : Trip → Nat} {l : List Trip} {t : Trip} :
    t ∈ sortByKey key l ↔ t ∈ l := List.mem_insertionSort _

theorem mem_sortByKeyDesc {key : Trip → Nat} {l : List Trip} {t : Trip} :
    t ∈ sortByKeyDesc key l ↔ t ∈ l := List.mem_insertionSort _

theorem pairwise_sortByKey (key : Trip → Nat) (l : List Trip) :
    List.Pairwise (fun a b => key a ≤ key b) (sortByKey key l) :=
  List.sorted_insertionSort (byKey key) l

theorem perm_sortByKey (key : Trip → Nat) (l : List Trip) :
    (sortByKey key l).Perm l := List.perm_insertionSort _ l

theorem pandasHead_sublist (n : Int) (l : List Trip) : (pandasHead n l).Sublist l := by
  unfold pandasHead
  split <;> exact List.take_sublist _ _

theorem mem_pandasHead {n : Int} {l : List Trip} {t : Trip}
    (h : t ∈ pandasHead n l) : t ∈ l :=
  (pandasHead_sublist n l).mem h

theorem pandasHead_nonneg (n : Int) (hn : 0 ≤ n) (l : List Trip) :
    pandasHead n l = l.take n.toNat := by
  unfold pandasHead
  rw [if_pos hn]

/-- The one-row head of a descending sort of a nonempty list is a row of the
list with a maximal key. -/
theorem sortDesc_take_one (key : Trip → Nat) (l : List Trip) (hl : l ≠ []) :
    ∃ b, (sortByKeyDesc key l).take 1 = [b] ∧ b ∈ l ∧ ∀ x ∈ l, key x ≤ key b := by
  have hperm : (sortByKeyDesc key l).Perm l := List.perm_insertionSort _ l
  have hsorted : List.Pairwise (byKeyDesc key) (sortByKeyDesc key l) :=
    List.sorted_insertionSort (byKeyDesc key) l
  cases hs : sortByKeyDesc key l with
  | nil =>
    rw [hs] at hperm
    exact absurd hperm.symm.eq_nil hl
  | cons b rest =>
    refine ⟨b, by simp, ?_, ?_⟩
    · exact hperm.mem_iff.mp (by rw [hs]; exact List.mem_cons_self _ _)
    · intro x hx
      have hx' : x ∈ b :: rest := by rw [← hs]; exact hperm.mem_iff.mpr hx
      rcases List.mem_cons.mp hx' with h | h
      · subst h; exact Nat.le_refl _
      · rw [hs] at hsorted
        exact (List.pairwise_cons.mp hsorted).1 x h

/-- The one-row head of an ascending sort of a nonempty list is a row of the
list with a minimal key. -/
theorem sortAsc_take_one (key : Trip → Nat) (l : List Trip) (hl : l ≠ []) :
    ∃ b, (sortByKey key l).take 1 = [b] ∧ b ∈ l ∧ ∀ x ∈ l, key b ≤ key x := by
  have hperm : (sortByKey key l).Perm l := List.perm_insertionSort _ l
  have hsorted : List.Pairwise (byKey key) (sortByKey key l) :=
    List.sorted_insertionSort (byKey key) l
  cases hs : sortByKey key l with
  | nil =>
    rw [hs] at hperm
    exact absurd hperm.symm.eq_nil hl
  | cons b rest =>
    refine ⟨b, by simp, ?_, ?_⟩
    · exact hperm.mem_iff.mp (by rw [hs]; exact List.mem_cons_self _ _)
    · intro x hx
      have hx' : x ∈ b :: rest := by rw [← hs]; exact hperm.mem_iff.mpr hx
      rcases List.mem_cons.mp hx' with h | h
      · subst h; exact Nat.le_refl _
      · rw [hs] at hsorted
        exact (List.pairwise_cons.mp hsorted).1 x h

theorem sortByKey_nil (key : Trip → Nat) : sortByKey key [] = [] := rfl

theorem sortByKey_singleton (key : Trip → Nat) (t : Trip) :
    sortByKey key [t] = [t] := rfl

theorem sortByKey_pair (key : Trip → Nat) (b a : Trip) (h : key b ≤ key a) :
    sortByKey key [b, a] = [b, a] := by
  simp [sortByKey, List.insertionSort, List.orderedInsert, byKey, h]

theorem data_isEmpty_false {d : String} (hd : d ≠ "") : d.data.isEmpty = false := by
  cases hdd : d.data with
  | nil => exact absurd ((string_eq_empty_iff d).mpr hdd) hd
  | cons c cs => simp

theorem parseHM_ne_ahora {hs : String} {T : Nat} (h : parseHM hs = some T) :
    hs ≠ "ahora" := by
  intro he
  rw [he] at h
  rw [show parseHM "ahora" = none from by decide] at h
  cases h

theorem parseHM_ne_empty {hs : String} {T : Nat} (h : parseHM hs = some T) :
    hs ≠ "" := by
  intro he
  rw [he] at h
  rw [show parseHM "" = none from by decide] at h
  cases h

/-! ### Branch equations for `buscar_horarios` -/

/-- The `hora == 'ahora'` branch (lines 93-101) in terms of the direction
pool. -/
theorem buscar_now_eq (df : List Trip) (now : Nat) (d : String)
    (acc ch : Option String) (cnt : Option Int) (lst : Bool)
    (hd : d ≠ "") (hdf : df.isEmpty = false) :
    buscar_horarios df now ⟨some d, some "ahora", acc, ch, cnt, lst, none⟩ =
      (if lst then sortByKey (fun t => t.salida) (dirPool df now d)
       else
         match cnt with
         | some n => pandasHead n (sortByKey (fun t => t.salida) (dirPool df now d))
         | none => (sortByKey (fun t => t.salida) (dirPool df now d)).take 3) := by
  simp [buscar_horarios, dirPool, optTruthy, data_isEmpty_false hd, hdf]

/-- The `condicion_horario == 'cerca'` branch (lines 109-127) in terms of
the direction pool. -/
theorem buscar_cerca_eq (df : List Trip) (now : Nat) (d hs : String)
    (acc : Option String) (cnt : Option Int) (lst : Bool) (T : Nat)
    (hd : d ≠ "") (hdf : df.isEmpty = false) (hT : parseHM hs = some T) :
    buscar_horarios df now ⟨some d, some hs, acc, some "cerca", cnt, lst, none⟩ =
      sortByKey (fun t => t.llegada)
        ((if ((dirPool df now d).filter (fun t => t.llegada ≤ T)).isEmpty then []
          else (sortByKeyDesc (fun t => t.llegada)
                 ((dirPool df now d).filter (fun t => t.llegada ≤ T))).take 1) ++
         (if ((dirPool df now d).filter (fun t => T < t.llegada)).isEmpty then []
          else (sortByKey (fun t => t.llegada)
                 ((dirPool df now d).filter (fun t => T < t.llegada))).take 1)) := by
  simp [buscar_horarios, dirPool, optTruthy, data_isEmpty_false hd, hdf,
    parseHM_ne_ahora hT, data_isEmpty_false (parseHM_ne_empty hT), hT]

/-- The `condicion_horario == 'antes_de'` branch (lines 130-141). -/
theorem buscar_antes_eq (df : List Trip) (now : Nat) (d hs : String)
    (acc : Option String) (cnt : Option Int) (lst : Bool) (T : Nat)
    (hd : d ≠ "") (hdf : df.isEmpty = false) (hT : parseHM hs = some T) :
    buscar_horarios df now ⟨some d, some hs, acc, some "antes_de", cnt, lst, none⟩ =
      (if lst then
         sortByKey (diffKey T) ((dirPool df now d).filter (fun t => t.llegada < T))
       else
         match cnt with
         | some n =>
           pandasHead n
             (sortByKey (diffKey T) ((dirPool df now d).filter (fun t => t.llegada < T)))
         | none =>
           sortByKey (diffKey T) ((dirPool df now d).filter (fun t => t.llegada < T))) := by
  simp [buscar_horarios, dirPool, optTruthy, data_isEmpty_false hd, hdf,
    parseHM_ne_ahora hT, data_isEmpty_false (parseHM_ne_empty hT), hT]

/-- The `condicion_horario == 'despues_de'` branch (lines 144-155). -/
theorem buscar_despues_eq (df : List Trip) (now : Nat) (d hs : String)
    (acc : Option String) (cnt : Option Int) (lst : Bool) (T : Nat)
    (hd : d ≠ "") (hdf : df.isEmpty = false) (hT : parseHM hs = some T) :
    buscar_horarios df now ⟨some d, some hs, acc, some "despues_de", cnt, lst, none⟩ =
      (if lst then
         sortByKey (diffKey T) ((dirPool df now d).filter (fun t => T ≤ t.llegada))
       else
         match cnt with
         | some n =>
           pandasHead n
             (sortByKey (diffKey T) ((dirPool df now d).filter (fun t => T ≤ t.llegada)))
         | none =>
           sortByKey (diffKey T) ((dirPool df now d).filter (fun t => T ≤ t.llegada))) := by
  simp [buscar_horarios, dirPool, optTruthy, data_isEmpty_false hd, hdf,
    parseHM_ne_ahora hT, data_isEmpty_false (parseHM_ne_empty hT), hT]

/-- The line-filter branch (lines 73-80): regex search on the lowered line,
optional exact direction match, sort by departure.  The current instant and
the time fields of the intent do not occur. -/
theorem buscar_line_eq (df : List Trip) (now : Nat) (dir hora acc ch : Option String)
    (cnt : Option Int) (lst : Bool) (s : String) (hs : s ≠ "") :
    buscar_horarios df now ⟨dir, hora, acc, ch, cnt, lst, some s⟩ =
      (if df.isEmpty then []
       else
         sortByKey (fun t => t.salida)
           (if optTruthy dir then
              (df.filter (fun t => reSearch (lowerStr s).data (lowerStr t.linea).data)).filter
                (fun t => lowerStr t.direccion = lowerStr (dir.getD ""))
            else df.filter (fun t => reSearch (lowerStr s).data (lowerStr t.linea).data))) := by
  by_cases hdf : df.isEmpty = true
  · simp [buscar_horarios, hdf]
  · rw [Bool.not_eq_true] at hdf
    by_cases hdir : optTruthy dir = true
    · simp [buscar_horarios, optTruthy, data_isEmpty_false hs, hdf, hdir]
    · rw [Bool.not_eq_true] at hdir
      simp [buscar_horarios, optTruthy, data_isEmpty_false hs, hdf, hdir]

/-- Every row returned outside the line-filter branch comes from the
direction pool of lines 85-90 (direction match + not yet departed). -/
theorem buscar_subset_pool (df : List Trip) (now : Nat) (i : Intent) (t : Trip)
    (hml : i.micro_linea = none)
    (ht : t ∈ buscar_horarios df now i) :
    ∃ d, i.direccion = some d ∧ t ∈ dirPool df now d := by
  obtain ⟨dir, hora, acc, ch, cnt, lst, ml⟩ := i
  simp only at hml
  subst hml
  by_cases hdf : df.isEmpty = true
  · simp [buscar_horarios, hdf] at ht
  rw [Bool.not_eq_true] at hdf
  cases dir with
  | none => simp [buscar_horarios, optTruthy, hdf] at ht
  | some d =>
    refine ⟨d, rfl, ?_⟩
    by_cases hd : d = ""
    · subst hd
      simp [buscar_horarios, optTruthy, hdf] at ht
    cases hora with
    | none => simp [buscar_horarios, optTruthy, data_isEmpty_false hd, hdf] at ht
    | some hs =>
      by_cases hah : hs = "ahora"
      · subst hah
        rw [buscar_now_eq df now d acc ch cnt lst hd hdf] at ht
        by_cases hl : lst = true
        · rw [if_pos hl] at ht
          exact mem_sortByKey.mp ht
        · rw [if_neg hl] at ht
          cases cnt with
          | some n => exact mem_sortByKey.mp (mem_pandasHead ht)
          | none => exact mem_sortByKey.mp (List.mem_of_mem_take ht)
      · by_cases hhe : hs = ""
        · subst hhe
          simp [buscar_horarios, optTruthy, data_isEmpty_false hd, hdf, hah] at ht
        cases hp : parseHM hs with
        | none =>
          simp [buscar_horarios, optTruthy, data_isEmpty_false hd, hdf, hah,
            data_isEmpty_false hhe, hp] at ht
        | some T =>
          by_cases hc1 : ch = some "cerca"
          · rw [hc1, buscar_cerca_eq df now d hs acc cnt lst T hd hdf hp] at ht
            rcases List.mem_append.mp (mem_sortByKey.mp ht) with h | h
            · split at h
              · cases h
              · exact (List.mem_filter.mp
                  (mem_sortByKeyDesc.mp (List.mem_of_mem_take h))).1
            · split at h
              · cases h
              · exact (List.mem_filter.mp
                  (mem_sortByKey.mp (List.mem_of_mem_take h))).1
          by_cases hc2 : ch = some "antes_de"
          · rw [hc2, buscar_antes_eq df now d hs acc cnt lst T hd hdf hp] at ht
            by_cases hl : lst = true
            · rw [if_pos hl] at ht
              exact (List.mem_filter.mp (mem_sortByKey.mp ht)).1
            · rw [if_neg hl] at ht
              cases cnt with
              | some n =>
                exact (List.mem_filter.mp (mem_sortByKey.mp (mem_pandasHead ht))).1
              | none => exact (List.mem_filter.mp (mem_sortByKey.mp ht)).1
          by_cases hc3 : ch = some "despues_de"
          · rw [hc3, buscar_despues_eq df now d hs acc cnt lst T hd hdf hp] at ht
            by_cases hl : lst = true
            · rw [if_pos hl] at ht
              exact (List.mem_filter.mp (mem_sortByKey.mp ht)).1
            · rw [if_neg hl] at ht
              cases cnt with
              | some n =>
                exact (List.mem_filter.mp (mem_sortByKey.mp (mem_pandasHead ht))).1
              | none => exact (List.mem_filter.mp (mem_sortByKey.mp ht)).1
          simp [buscar_horarios, optTruthy, data_isEmpty_false hd, hdf, hah,
            data_isEmpty_false hhe, hp, hc1, hc2, hc3] at ht

/-- C1: for every intent in which `lineFilter` (`micro_linea`) is absent and
`direction` (`direccion`) is set, every trip in the returned MatchSet has a
departure instant strictly after the current instant, in every time branch;
already-departed trips are never returned. -/
theorem c1_no_departed_trips (df : List Trip) (now : Nat) (i : Intent) (d : String)
    (hml : i.micro_linea = none) (hdir : i.direccion = some d) (t : Trip)
    (ht : t ∈ buscar_horarios df now i) : now < t.salida := by
  obtain ⟨d', _, hp⟩ := buscar_subset_pool df now i t hml ht
  have := (List.mem_filter.mp hp).2
  simpa using this

/-- Witness for C1 at a concrete input: with the spec scenario store and
`now` 15:00, the returned 15:10 trip indeed departs strictly after 15:00. -/
theorem c1_no_departed_trips_witness :
    (⟨some "Ida", some "ahora", none, none, none, false, none⟩ : Intent).micro_linea = none ∧
    (⟨"L2", "Ida", 54600, 56400⟩ : Trip) ∈
      buscar_horarios [⟨"L1", "Ida", 53400, 55200⟩, ⟨"L2", "Ida", 54600, 56400⟩,
        ⟨"L3", "Ida", 55800, 57600⟩] 54000
        ⟨some "Ida", some "ahora", none, none, none, false, none⟩ ∧
    54000 < (⟨"L2", "Ida", 54600, 56400⟩ : Trip).salida :=
  ⟨rfl, by decide,
    c1_no_departed_trips
      [⟨"L1", "Ida", 53400, 55200⟩, ⟨"L2", "Ida", 54600, 56400⟩,
        ⟨"L3", "Ida", 55800, 57600⟩] 54000
      ⟨some "Ida", some "ahora", none, none, none, false, none⟩ "Ida" rfl rfl
      ⟨"L2", "Ida", 54600, 56400⟩ (by decide)⟩

/-- C4: for direction set, no line filter, and `hora = "ahora"`: the
not-yet-departed trips of the direction are ordered ascending by departure
instant, and the result is all of them under `listado_completo`, else the
first `cantidad` of them when `cantidad` is set, else exactly the first 3. -/
theorem c4_now_branch (df : List Trip) (now : Nat) (d : String)
    (acc ch : Option String) (hd : d ≠ "") :
    (sortByKey (fun t => t.salida) (dirPool df now d)).Perm (dirPool df now d) ∧
    List.Pairwise (fun a b => a.salida ≤ b.salida)
      (sortByKey (fun t => t.salida) (dirPool df now d)) ∧
    (∀ cnt : Option Int,
      buscar_horarios df now ⟨some d, some "ahora", acc, ch, cnt, true, none⟩ =
        sortByKey (fun t => t.salida) (dirPool df now d)) ∧
    (∀ n : Int, 0 ≤ n →
      buscar_horarios df now ⟨some d, some "ahora", acc, ch, some n, false, none⟩ =
        (sortByKey (fun t => t.salida) (dirPool df now d)).take n.toNat) ∧
    buscar_horarios df now ⟨some d, some "ahora", acc, ch, none, false, none⟩ =
      (sortByKey (fun t => t.salida) (dirPool df now d)).take 3 := by
  refine ⟨perm_sortByKey _ _, pairwise_sortByKey _ _, ?_, ?_, ?_⟩
  · intro cnt
    by_cases hdf : df.isEmpty = true
    · rw [List.isEmpty_iff.mp hdf]
      simp [buscar_horarios, dirPool, sortByKey, List.insertionSort]
    · rw [Bool.not_eq_true] at hdf
      rw [buscar_now_eq df now d acc ch cnt true hd hdf]
      simp
  · intro n hn
    by_cases hdf : df.isEmpty = true
    · rw [List.isEmpty_iff.mp hdf]
      simp [buscar_horarios, dirPool, sortByKey, List.insertionSort]
    · rw [Bool.not_eq_true] at hdf
      rw [buscar_now_eq df now d acc ch (some n) false hd hdf]
      simp [pandasHead_nonneg n hn]
  · by_cases hdf : df.isEmpty = true
    · rw [List.isEmpty_iff.mp hdf]
      simp [buscar_horarios, dirPool, sortByKey, List.insertionSort]
    · rw [Bool.not_eq_true] at hdf
      rw [buscar_now_eq df now d acc ch none false hd hdf]
      simp

/-- Witness for C4: in the spec scenario (three Ida trips, `now` 15:00, the
14:50 trip departed), the default window returns the first 3 of the sorted
pool and an explicit count of 1 returns the first trip. -/
theorem c4_now_branch_witness :
    buscar_horarios [⟨"L1", "Ida", 53400, 55200⟩, ⟨"L2", "Ida", 54600, 56400⟩,
        ⟨"L3", "Ida", 55800, 57600⟩] 54000
        ⟨some "Ida", some "ahora", none, none, none, false, none⟩ =
      (sortByKey (fun t => t.salida)
        (dirPool [⟨"L1", "Ida", 53400, 55200⟩, ⟨"L2", "Ida", 54600, 56400⟩,
          ⟨"L3", "Ida", 55800, 57600⟩] 54000 "Ida")).take 3 ∧
    buscar_horarios [⟨"L1", "Ida", 53400, 55200⟩, ⟨"L2", "Ida", 54600, 56400⟩,
        ⟨"L3", "Ida", 55800, 57600⟩] 54000
        ⟨some "Ida", some "ahora", none, none, some 1, false, none⟩ =
      (sortByKey (fun t => t.salida)
        (dirPool [⟨"L1", "Ida", 53400, 55200⟩, ⟨"L2", "Ida", 54600, 56400⟩,
          ⟨"L3", "Ida", 55800, 57600⟩] 54000 "Ida")).take (1 : Int).toNat :=
  ⟨(c4_now_branch [⟨"L1", "Ida", 53400, 55200⟩, ⟨"L2", "Ida", 54600, 56400⟩,
      ⟨"L3", "Ida", 55800, 57600⟩] 54000 "Ida" none none (by decide)).2.2.2.2,
   (c4_now_branch [⟨"L1", "Ida", 53400, 55200⟩, ⟨"L2", "Ida", 54600, 56400⟩,
      ⟨"L3", "Ida", 55800, 57600⟩] 54000 "Ida" none none (by decide)).2.2.2.1 1
     (by decide)⟩

/-- C7: with `listado_completo` true the result does not depend on
`cantidad`: the run with any `cantidad` equals the run with `cantidad`
absent.  (`cantidad` is only consulted on the `listado_completo = False`
paths, lines 96-101, 136-141 and 150-155.) -/
theorem c7_fullListing_overrides_count (df : List Trip) (now : Nat)
    (dir hora acc ch : Option String) (cnt : Option Int) (ml : Option String) :
    buscar_horarios df now ⟨dir, hora, acc, ch, cnt, true, ml⟩ =
      buscar_horarios df now ⟨dir, hora, acc, ch, none, true, ml⟩ := rfl

/-- C9: with a non-empty `micro_linea`, the result is independent of the
current instant and of the `hora`, `condicion_horario`, `cantidad` and
`listado_completo` fields: two runs differing only in those inputs agree. -/
theorem c9_line_branch_independent (df : List Trip) (s : String) (hs : s ≠ "")
    (dir acc : Option String) (now1 now2 : Nat) (h1 h2 ch1 ch2 : Option String)
    (c1 c2 : Option Int) (l1 l2 : Bool) :
    buscar_horarios df now1 ⟨dir, h1, acc, ch1, c1, l1, some s⟩ =
      buscar_horarios df now2 ⟨dir, h2, acc, ch2, c2, l2, some s⟩ := by
  rw [buscar_line_eq df now1 dir h1 acc ch1 c1 l1 s hs,
    buscar_line_eq df now2 dir h2 acc ch2 c2 l2 s hs]

/-- Witness for C9: the `"60"` line query returns the same rows at two
different instants and with different time/count/listing fields. -/
theorem c9_line_branch_independent_witness :
    ("60" : String) ≠ "" ∧
    buscar_horarios [⟨"Ruta 60", "Ida", 10, 20⟩, ⟨"Ruta 12", "Vuelta", 5, 15⟩] 0
        ⟨none, none, none, none, none, false, some "60"⟩ =
      buscar_horarios [⟨"Ruta 60", "Ida", 10, 20⟩, ⟨"Ruta 12", "Vuelta", 5, 15⟩] 999
        ⟨none, some "15:00", none, some "cerca", some 1, true, some "60"⟩ :=
  ⟨by decide,
    c9_line_branch_independent [⟨"Ruta 60", "Ida", 10, 20⟩, ⟨"Ruta 12", "Vuelta", 5, 15⟩]
      "60" (by decide) none none 0 999 none (some "15:00") none (some "cerca")
      none (some 1) false true⟩

/-- C8: the engine returns the empty MatchSet in every degenerate case: an
empty store (line 54); no `micro_linea` and no `direccion` (lines 82-83);
`direccion` set but `hora` absent (line 160); a literal `hora` that fails
the strict `%H:%M` parse (lines 157-158); and a well-formed literal `hora`
with `condicion_horario` absent or not one of `cerca` / `antes_de` /
`despues_de` (fall-through to line 160). -/
theorem c8_degenerate_cases_empty :
    (∀ (now : Nat) (i : Intent), buscar_horarios [] now i = []) ∧
    (∀ (df : List Trip) (now : Nat) (i : Intent),
      i.micro_linea = none → i.direccion = none →
      buscar_horarios df now i = []) ∧
    (∀ (df : List Trip) (now : Nat) (i : Intent) (d : String),
      i.micro_linea = none → i.direccion = some d → i.hora = none →
      buscar_horarios df now i = []) ∧
    (∀ (df : List Trip) (now : Nat) (i : Intent) (d hs : String),
      i.micro_linea = none → i.direccion = some d → i.hora = some hs →
      hs ≠ "ahora" → parseHM hs = none →
      buscar_horarios df now i = []) ∧
    (∀ (df : List Trip) (now : Nat) (i : Intent) (d hs : String) (T : Nat),
      i.micro_linea = none → i.direccion = some d → i.hora = some hs →
      hs ≠ "ahora" → parseHM hs = some T →
      i.condicion_horario ≠ some "cerca" →
      i.condicion_horario ≠ some "antes_de" →
      i.condicion_horario ≠ some "despues_de" →
      buscar_horarios df now i = []) := by
  refine ⟨?_, ?_, ?_, ?_, ?_⟩
  · intro now i
    simp [buscar_horarios]
  · intro df now i hml hdir
    obtain ⟨dir, hora, acc, ch, cnt, lst, ml⟩ := i
    simp only at hml hdir
    subst hml hdir
    by_cases hdf : df.isEmpty = true
    · simp [buscar_horarios, hdf]
    · rw [Bool.not_eq_true] at hdf
      simp [buscar_horarios, optTruthy, hdf]
  · intro df now i d hml hdir hh
    obtain ⟨dir, hora, acc, ch, cnt, lst, ml⟩ := i
    simp only at hml hdir hh
    subst hml hdir hh
    by_cases hdf : df.isEmpty = true
    · simp [buscar_horarios, hdf]
    rw [Bool.not_eq_true] at hdf
    by_cases hd : d = ""
    · subst hd
      simp [buscar_horarios, optTruthy, hdf]
    · simp [buscar_horarios, optTruthy, data_isEmpty_false hd, hdf]
  · intro df now i d hs hml hdir hh hah hp
    obtain ⟨dir, hora, acc, ch, cnt, lst, ml⟩ := i
    simp only at hml hdir hh
    subst hml hdir hh
    by_cases hdf : df.isEmpty = true
    · simp [buscar_horarios, hdf]
    rw [Bool.not_eq_true] at hdf
    by_cases hd : d = ""
    · subst hd
      simp [buscar_horarios, optTruthy, hdf]
    by_cases hhe : hs = ""
    · subst hhe
      simp [buscar_horarios, optTruthy, data_isEmpty_false hd, hdf, hah]
    · simp [buscar_horarios, optTruthy, data_isEmpty_false hd, hdf, hah,
        data_isEmpty_false hhe, hp]
  · intro df now i d hs T hml hdir hh hah hp hc1 hc2 hc3
    obtain ⟨dir, hora, acc, ch, cnt, lst, ml⟩ := i
    simp only at hml hdir hh hc1 hc2 hc3
    subst hml hdir hh
    by_cases hdf : df.isEmpty = true
    · simp [buscar_horarios, hdf]
    rw [Bool.not_eq_true] at hdf
    by_cases hd : d = ""
    · subst hd
      simp [buscar_horarios, optTruthy, hdf]
    by_cases hhe : hs = ""
    · subst hhe
      simp [buscar_horarios, optTruthy, data_isEmpty_false hd, hdf, hah]
    · simp [buscar_horarios, optTruthy, data_isEmpty_false hd, hdf, hah,
        data_isEmpty_false hhe, hp, hc1, hc2, hc3]

/-- Witness for C8: one concrete instance of each degenerate case. -/
theorem c8_degenerate_cases_empty_witness :
    buscar_horarios [] 0 ⟨some "Ida", some "ahora", none, none, none, false, none⟩ = [] ∧
    buscar_horarios [⟨"L", "Ida", 10, 20⟩] 0
      ⟨none, some "ahora", none, none, none, false, none⟩ = [] ∧
    buscar_horarios [⟨"L", "Ida", 10, 20⟩] 0
      ⟨some "Ida", none, none, none, none, false, none⟩ = [] ∧
    buscar_horarios [⟨"L", "Ida", 10, 20⟩] 0
      ⟨some "Ida", some "15:75", none, some "cerca", none, false, none⟩ = [] ∧
    buscar_horarios [⟨"L", "Ida", 10, 20⟩] 0
      ⟨some "Ida", some "15:30", none, none, none, false, none⟩ = [] :=
  ⟨c8_degenerate_cases_empty.1 0 ⟨some "Ida", some "ahora", none, none, none, false, none⟩,
   c8_degenerate_cases_empty.2.1 [⟨"L", "Ida", 10, 20⟩] 0
     ⟨none, some "ahora", none, none, none, false, none⟩ rfl rfl,
   c8_degenerate_cases_empty.2.2.1 [⟨"L", "Ida", 10, 20⟩] 0
     ⟨some "Ida", none, none, none, none, false, none⟩ "Ida" rfl rfl rfl,
   c8_degenerate_cases_empty.2.2.2.1 [⟨"L", "Ida", 10, 20⟩] 0
     ⟨some "Ida", some "15:75", none, some "cerca", none, false, none⟩ "Ida" "15:75"
     rfl rfl rfl (by decide) (by decide),
   c8_degenerate_cases_empty.2.2.2.2 [⟨"L", "Ida", 10, 20⟩] 0
     ⟨some "Ida", some "15:30", none, none, none, false, none⟩ "Ida" "15:30" 55800
     rfl rfl rfl (by decide) (by decide) (by decide) (by decide) (by decide)⟩

/-- The count policy shared by the `ahora`, `antes_de` and `despues_de`
branches (all rows under `listado_completo`, else `head(cantidad)`, else a
default) always returns a sublist of its input. -/
theorem capped_sublist (S : List Trip) (cnt : Option Int) (lst : Bool) :
    (if lst then S
     else
       match cnt with
       | some n => pandasHead n S
       | none => S).Sublist S := by
  by_cases hl : lst = true
  · rw [if_pos hl]
  · rw [if_neg hl]
    cases cnt with
    | some n => exact pandasHead_sublist n S
    | none => exact List.Sublist.refl S

/-- C3: with a well-formed literal time `T`, `antes_de` selects
not-yet-departed direction rows with arrival strictly before `T` and
`despues_de` those with arrival at-or-after `T`; both branches are sorted
ascending by `|arrival − T|`; and with no `cantidad` and no
`listado_completo` they return all qualifying rows (no default cap). -/
theorem c3_before_after_branches (df : List Trip) (now : Nat) (d hs : String)
    (acc : Option String) (T : Nat) (hd : d ≠ "") (hT : parseHM hs = some T) :
    (∀ (cnt : Option Int) (lst : Bool) (t : Trip),
      t ∈ buscar_horarios df now ⟨some d, some hs, acc, some "antes_de", cnt, lst, none⟩ →
      t ∈ dirPool df now d ∧ t.llegada < T) ∧
    (∀ (cnt : Option Int) (lst : Bool) (t : Trip),
      t ∈ buscar_horarios df now ⟨some d, some hs, acc, some "despues_de", cnt, lst, none⟩ →
      t ∈ dirPool df now d ∧ T ≤ t.llegada) ∧
    (∀ (cnt : Option Int) (lst : Bool),
      List.Pairwise (fun a b => diffKey T a ≤ diffKey T b)
        (buscar_horarios df now ⟨some d, some hs, acc, some "antes_de", cnt, lst, none⟩)) ∧
    (∀ (cnt : Option Int) (lst : Bool),
      List.Pairwise (fun a b => diffKey T a ≤ diffKey T b)
        (buscar_horarios df now ⟨some d, some hs, acc, some "despues_de", cnt, lst, none⟩)) ∧
    (buscar_horarios df now ⟨some d, some hs, acc, some "antes_de", none, false, none⟩).Perm
      ((dirPool df now d).filter (fun t => t.llegada < T)) ∧
    (buscar_horarios df now ⟨some d, some hs, acc, some "despues_de", none, false, none⟩).Perm
      ((dirPool df now d).filter (fun t => T ≤ t.llegada)) := by
  refine ⟨?_, ?_, ?_, ?_, ?_, ?_⟩
  · intro cnt lst t ht
    by_cases hdf : df.isEmpty = true
    · rw [List.isEmpty_iff.mp hdf] at ht
      simp [buscar_horarios] at ht
    rw [Bool.not_eq_true] at hdf
    rw [buscar_antes_eq df now d hs acc cnt lst T hd hdf hT] at ht
    have h3 := List.mem_filter.mp (mem_sortByKey.mp ((capped_sublist _ cnt lst).mem ht))
    exact ⟨h3.1, by simpa using h3.2⟩
  · intro cnt lst t ht
    by_cases hdf : df.isEmpty = true
    · rw [List.isEmpty_iff.mp hdf] at ht
      simp [buscar_horarios] at ht
    rw [Bool.not_eq_true] at hdf
    rw [buscar_despues_eq df now d hs acc cnt lst T hd hdf hT] at ht
    have h3 := List.mem_filter.mp (mem_sortByKey.mp ((capped_sublist _ cnt lst).mem ht))
    exact ⟨h3.1, by simpa using h3.2⟩
  · intro cnt lst
    by_cases hdf : df.isEmpty = true
    · rw [List.isEmpty_iff.mp hdf]
      simp [buscar_horarios]
    rw [Bool.not_eq_true] at hdf
    rw [buscar_antes_eq df now d hs acc cnt lst T hd hdf hT]
    exact List.Pairwise.sublist (capped_sublist _ cnt lst) (pairwise_sortByKey (diffKey T) _)
  · intro cnt lst
    by_cases hdf : df.isEmpty = true
    · rw [List.isEmpty_iff.mp hdf]
      simp [buscar_horarios]
    rw [Bool.not_eq_true] at hdf
    rw [buscar_despues_eq df now d hs acc cnt lst T hd hdf hT]
    exact List.Pairwise.sublist (capped_sublist _ cnt lst) (pairwise_sortByKey (diffKey T) _)
  · by_cases hdf : df.isEmpty = true
    · rw [List.isEmpty_iff.mp hdf]
      simp [buscar_horarios, dirPool]
    rw [Bool.not_eq_true] at hdf
    rw [buscar_antes_eq df now d hs acc none false T hd hdf hT]
    simpa using perm_sortByKey (diffKey T) ((dirPool df now d).filter (fun t => t.llegada < T))
  · by_cases hdf : df.isEmpty = true
    · rw [List.isEmpty_iff.mp hdf]
      simp [buscar_horarios, dirPool]
    rw [Bool.not_eq_true] at hdf
    rw [buscar_despues_eq df now d hs acc none false T hd hdf hT]
    simpa using perm_sortByKey (diffKey T) ((dirPool df now d).filter (fun t => T ≤ t.llegada))

/-- Witness for C3: on the three-trip store at 14:43 with target 15:25, the
returned `antes_de` trip arrives before the target, and the uncapped
`despues_de` run returns all qualifying trips. -/
theorem c3_before_after_branches_witness :
    ((⟨"L1", "Ida", 53400, 55200⟩ : Trip) ∈
        dirPool [⟨"L1", "Ida", 53400, 55200⟩, ⟨"L2", "Ida", 54600, 56400⟩,
          ⟨"L3", "Ida", 55800, 57600⟩] 53000 "Ida" ∧
      (⟨"L1", "Ida", 53400, 55200⟩ : Trip).llegada < 55500) ∧
    (buscar_horarios [⟨"L1", "Ida", 53400, 55200⟩, ⟨"L2", "Ida", 54600, 56400⟩,
        ⟨"L3", "Ida", 55800, 57600⟩] 53000
        ⟨some "Ida", some "15:25", none, some "despues_de", none, false, none⟩).Perm
      ((dirPool [⟨"L1", "Ida", 53400, 55200⟩, ⟨"L2", "Ida", 54600, 56400⟩,
        ⟨"L3", "Ida", 55800, 57600⟩] 53000 "Ida").filter (fun t => 55500 ≤ t.llegada)) :=
  ⟨(c3_before_after_branches [⟨"L1", "Ida", 53400, 55200⟩, ⟨"L2", "Ida", 54600, 56400⟩,
      ⟨"L3", "Ida", 55800, 57600⟩] 53000 "Ida" "15:25" none 55500 (by decide) rfl).1
      none false ⟨"L1", "Ida", 53400, 55200⟩ (by decide),
   (c3_before_after_branches [⟨"L1", "Ida", 53400, 55200⟩, ⟨"L2", "Ida", 54600, 56400⟩,
      ⟨"L3", "Ida", 55800, 57600⟩] 53000 "Ida" "15:25" none 55500 (by decide)
      rfl).2.2.2.2.2⟩

theorem isEmpty_false_ne {l : List Trip} (h : l.isEmpty = false) : l ≠ [] := by
  intro he
  rw [he] at h
  simp at h

/-- C2: in the `cerca` branch with a well-formed literal time `T`, the
result splits as `r1 ++ r2` where `r1` is the single not-yet-departed trip
with the latest arrival at-or-before `T` (if any) and `r2` the single one
with the earliest arrival strictly after `T` (if any); hence the result has
0, 1 or 2 trips, is ordered ascending by arrival, and when both trips exist
the first arrives at-or-before `T` and the second strictly after. -/
theorem c2_near_branch (df : List Trip) (now : Nat) (d hs : String)
    (acc : Option String) (cnt : Option Int) (lst : Bool) (T : Nat)
    (hd : d ≠ "") (hT : parseHM hs = some T) :
    ∃ r1 r2,
      buscar_horarios df now ⟨some d, some hs, acc, some "cerca", cnt, lst, none⟩ =
        r1 ++ r2 ∧
      ((dirPool df now d).filter (fun t => t.llegada ≤ T) = [] → r1 = []) ∧
      ((dirPool df now d).filter (fun t => t.llegada ≤ T) ≠ [] →
        ∃ b, r1 = [b] ∧ b ∈ (dirPool df now d).filter (fun t => t.llegada ≤ T) ∧
          ∀ x ∈ (dirPool df now d).filter (fun t => t.llegada ≤ T),
            x.llegada ≤ b.llegada) ∧
      ((dirPool df now d).filter (fun t => T < t.llegada) = [] → r2 = []) ∧
      ((dirPool df now d).filter (fun t => T < t.llegada) ≠ [] →
        ∃ a, r2 = [a] ∧ a ∈ (dirPool df now d).filter (fun t => T < t.llegada) ∧
          ∀ x ∈ (dirPool df now d).filter (fun t => T < t.llegada),
            a.llegada ≤ x.llegada) ∧
      List.Pairwise (fun x y => x.llegada ≤ y.llegada) (r1 ++ r2) ∧
      (r1 ++ r2).length ≤ 2 ∧
      (∀ x y, r1 ++ r2 = [x, y] → x.llegada ≤ T ∧ T < y.llegada) := by
  by_cases hdf : df.isEmpty = true
  · rw [List.isEmpty_iff.mp hdf]
    refine ⟨[], [], ?_, fun _ => rfl, ?_, fun _ => rfl, ?_, ?_, ?_, ?_⟩
    · simp [buscar_horarios]
    · intro h
      exact absurd rfl h
    · intro h
      exact absurd rfl h
    · simp
    · simp
    · intro x y h
      simp at h
  rw [Bool.not_eq_true] at hdf
  have heq := buscar_cerca_eq df now d hs acc cnt lst T hd hdf hT
  by_cases hB : ((dirPool df now d).filter (fun t => t.llegada ≤ T)).isEmpty = true
  · by_cases hA : ((dirPool df now d).filter (fun t => T < t.llegada)).isEmpty = true
    · refine ⟨[], [], ?_, fun _ => rfl, ?_, fun _ => rfl, ?_, ?_, ?_, ?_⟩
      · rw [heq, if_pos hB, if_pos hA]
        rfl
      · intro h
        exact absurd (List.isEmpty_iff.mp hB) h
      · intro h
        exact absurd (List.isEmpty_iff.mp hA) h
      · simp
      · simp
      · intro x y h
        simp at h
    · rw [Bool.not_eq_true] at hA
      obtain ⟨a, hatake, hamem, hamin⟩ :=
        sortAsc_take_one (fun t => t.llegada)
          ((dirPool df now d).filter (fun t => T < t.llegada)) (isEmpty_false_ne hA)
      refine ⟨[], [a], ?_, fun _ => rfl, ?_, ?_, ?_, ?_, ?_, ?_⟩
      · rw [heq, if_pos hB, if_neg (by simp [hA]), hatake]
        rfl
      · intro h
        exact absurd (List.isEmpty_iff.mp hB) h
      · intro h
        exact absurd h (isEmpty_false_ne hA)
      · intro _
        exact ⟨a, rfl, hamem, hamin⟩
      · simp
      · simp
      · intro x y h
        simp at h
  · rw [Bool.not_eq_true] at hB
    obtain ⟨b, hbtake, hbmem, hbmax⟩ :=
      sortDesc_take_one (fun t => t.llegada)
        ((dirPool df now d).filter (fun t => t.llegada ≤ T)) (isEmpty_false_ne hB)
    have hbT : b.llegada ≤ T := by simpa using (List.mem_filter.mp hbmem).2
    by_cases hA : ((dirPool df now d).filter (fun t => T < t.llegada)).isEmpty = true
    · refine ⟨[b], [], ?_, ?_, ?_, fun _ => rfl, ?_, ?_, ?_, ?_⟩
      · rw [heq, if_neg (by simp [hB]), if_pos hA, hbtake]
        rfl
      · intro h
        exact absurd h (isEmpty_false_ne hB)
      · intro _
        exact ⟨b, rfl, hbmem, hbmax⟩
      · intro h
        exact absurd (List.isEmpty_iff.mp hA) h
      · simp
      · simp
      · intro x y h
        simp at h
    · rw [Bool.not_eq_true] at hA
      obtain ⟨a, hatake, hamem, hamin⟩ :=
        sortAsc_take_one (fun t => t.llegada)
          ((dirPool df now d).filter (fun t => T < t.llegada)) (isEmpty_false_ne hA)
      have hTa : T < a.llegada := by simpa using (List.mem_filter.mp hamem).2
      have hba : b.llegada ≤ a.llegada := Nat.le_of_lt (Nat.lt_of_le_of_lt hbT hTa)
      refine ⟨[b], [a], ?_, ?_, ?_, ?_, ?_, ?_, ?_, ?_⟩
      · rw [heq, if_neg (by simp [hB]), if_neg (by simp [hA]), hbtake, hatake]
        exact sortByKey_pair (fun t => t.llegada) b a hba
      · intro h
        exact absurd h (isEmpty_false_ne hB)
      · intro _
        exact ⟨b, rfl, hbmem, hbmax⟩
      · intro h
        exact absurd h (isEmpty_false_ne hA)
      · intro _
        exact ⟨a, rfl, hamem, hamin⟩
      · simp [hba]
      · simp
      · intro x y h
        have hxy : b = x ∧ a = y := by simpa using h
        obtain ⟨hx, hy⟩ := hxy
        subst hx hy
        exact ⟨hbT, hTa⟩

/-- Witness for C2: the spec scenario store at 14:43 with target 15:25
(arrivals 15:20 below and 15:40, 16:00 above). -/
theorem c2_near_branch_witness :
    ∃ r1 r2,
      buscar_horarios [⟨"L1", "Ida", 53400, 55200⟩, ⟨"L2", "Ida", 54600, 56400⟩,
          ⟨"L3", "Ida", 55800, 57600⟩] 53000
          ⟨some "Ida", some "15:25", none, some "cerca", none, false, none⟩ =
        r1 ++ r2 ∧
      ((dirPool [⟨"L1", "Ida", 53400, 55200⟩, ⟨"L2", "Ida", 54600, 56400⟩,
          ⟨"L3", "Ida", 55800, 57600⟩] 53000 "Ida").filter
          (fun t => t.llegada ≤ 55500) = [] → r1 = []) ∧
      ((dirPool [⟨"L1", "Ida", 53400, 55200⟩, ⟨"L2", "Ida", 54600, 56400⟩,
          ⟨"L3", "Ida", 55800, 57600⟩] 53000 "Ida").filter
          (fun t => t.llegada ≤ 55500) ≠ [] →
        ∃ b, r1 = [b] ∧
          b ∈ (dirPool [⟨"L1", "Ida", 53400, 55200⟩, ⟨"L2", "Ida", 54600, 56400⟩,
            ⟨"L3", "Ida", 55800, 57600⟩] 53000 "Ida").filter
            (fun t => t.llegada ≤ 55500) ∧
          ∀ x ∈ (dirPool [⟨"L1", "Ida", 53400, 55200⟩, ⟨"L2", "Ida", 54600, 56400⟩,
            ⟨"L3", "Ida", 55800, 57600⟩] 53000 "Ida").filter
            (fun t => t.llegada ≤ 55500), x.llegada ≤ b.llegada) ∧
      ((dirPool [⟨"L1", "Ida", 53400, 55200⟩, ⟨"L2", "Ida", 54600, 56400⟩,
          ⟨"L3", "Ida", 55800, 57600⟩] 53000 "Ida").filter
          (fun t => 55500 < t.llegada) = [] → r2 = []) ∧
      ((dirPool [⟨"L1", "Ida", 53400, 55200⟩, ⟨"L2", "Ida", 54600, 56400⟩,
          ⟨"L3", "Ida", 55800, 57600⟩] 53000 "Ida").filter
          (fun t => 55500 < t.llegada) ≠ [] →
        ∃ a, r2 = [a] ∧
          a ∈ (dirPool [⟨"L1", "Ida", 53400, 55200⟩, ⟨"L2", "Ida", 54600, 56400⟩,
            ⟨"L3", "Ida", 55800, 57600⟩] 53000 "Ida").filter
            (fun t => 55500 < t.llegada) ∧
          ∀ x ∈ (dirPool [⟨"L1", "Ida", 53400, 55200⟩, ⟨"L2", "Ida", 54600, 56400⟩,
            ⟨"L3", "Ida", 55800, 57600⟩] 53000 "Ida").filter
            (fun t => 55500 < t.llegada), a.llegada ≤ x.llegada) ∧
      List.Pairwise (fun x y => x.llegada ≤ y.llegada) (r1 ++ r2) ∧
      (r1 ++ r2).length ≤ 2 ∧
      (∀ x y, r1 ++ r2 = [x, y] → x.llegada ≤ 55500 ∧ 55500 < y.llegada) :=
  c2_near_branch [⟨"L1", "Ida", 53400, 55200⟩, ⟨"L2", "Ida", 54600, 56400⟩,
    ⟨"L3", "Ida", 55800, 57600⟩] 53000 "Ida" "15:25" none none false 55500
    (by decide) rfl

/-! ### Literal regex patterns degenerate to substring search -/

theorem charOfNat_toNat (n : Nat) (h1 : 97 ≤ n) (h2 : n ≤ 122) :
    (Char.ofNat n).toNat = n := by
  unfold Char.ofNat
  rw [dif_pos (Or.inl (by omega))]
  simp [Char.ofNatAux, Char.toNat, UInt32.toNat]

theorem lowerChar_toNat (c : Char) :
    (lowerChar c).toNat =
      if 65 ≤ c.toNat ∧ c.toNat ≤ 90 then c.toNat + 32 else c.toNat := by
  unfold lowerChar
  split
  · next h => exact charOfNat_toNat _ (by omega) (by omega)
  · rfl

/-- ASCII lowering maps no character into or out of the regex
metacharacter set (the metacharacters are not letters). -/
theorem regexSpecialChar_lowerChar (c : Char) :
    regexSpecialChar (lowerChar c) = regexSpecialChar c := by
  simp only [regexSpecialChar, lowerChar_toNat]
  by_cases h : 65 ≤ c.toNat ∧ c.toNat ≤ 90
  · rw [if_pos h]
    obtain ⟨h1, h2⟩ := h
    have hl : (decide (c.toNat + 32 = 46) || decide (c.toNat + 32 = 94) ||
        decide (c.toNat + 32 = 36) || decide (c.toNat + 32 = 42) ||
        decide (c.toNat + 32 = 43) || decide (c.toNat + 32 = 63) ||
        decide (c.toNat + 32 = 124) || decide (c.toNat + 32 = 40) ||
        decide (c.toNat + 32 = 41) || decide (c.toNat + 32 = 91) ||
        decide (c.toNat + 32 = 93) || decide (c.toNat + 32 = 92) ||
        decide (c.toNat + 32 = 123) || decide (c.toNat + 32 = 125)) = false := by
      simp only [Bool.or_eq_false_iff, decide_eq_false_iff_not]
      omega
    have hr : (decide (c.toNat = 46) || decide (c.toNat = 94) ||
        decide (c.toNat = 36) || decide (c.toNat = 42) ||
        decide (c.toNat = 43) || decide (c.toNat = 63) ||
        decide (c.toNat = 124) || decide (c.toNat = 40) ||
        decide (c.toNat = 41) || decide (c.toNat = 91) ||
        decide (c.toNat = 93) || decide (c.toNat = 92) ||
        decide (c.toNat = 123) || decide (c.toNat = 125)) = false := by
      simp only [Bool.or_eq_false_iff, decide_eq_false_iff_not]
      omega
    rw [hl, hr]
  · rw [if_neg h]

theorem regexLiteral_lowerStr {s : String} (h : regexLiteralStr s = true) :
    (lowerStr s).data.all (fun c => !regexSpecialChar c) = true := by
  show ((s.data.map lowerChar).all (fun c => !regexSpecialChar c)) = true
  rw [List.all_map]
  rw [show ((fun c => !regexSpecialChar c) ∘ lowerChar) = (fun c => !regexSpecialChar c)
    from funext fun c => by simp [Function.comp, regexSpecialChar_lowerChar]]
  exact h

/-- On a metacharacter-free pattern, anchored regex matching is the
prefix test. -/
theorem reMatchHere_literal (pat : List Char)
    (hp : pat.all (fun c => !regexSpecialChar c) = true) :
    ∀ text, reMatchHere pat text = startsWithChars text pat := by
  induction pat with
  | nil =>
    intro text
    cases text <;> rfl
  | cons p ps ih =>
    intro text
    rw [List.all_cons, Bool.and_eq_true] at hp
    obtain ⟨hp1, hps⟩ := hp
    have hdot : p ≠ '.' := by
      intro he
      subst he
      have : regexSpecialChar '.' = false := by simpa using hp1
      exact absurd this (by decide)
    cases text with
    | nil => rfl
    | cons c cs =>
      show ((decide (p = '.') || decide (p = c)) && reMatchHere ps cs) =
        (decide (c = p) && startsWithChars cs ps)
      rw [decide_eq_false hdot, Bool.false_or, ih hps cs,
        decide_eq_decide.mpr ⟨fun h => h.symm, fun h => h.symm⟩]

/-- On a metacharacter-free pattern, `re.search` is plain substring
search. -/
theorem reSearch_literal (pat : List Char)
    (hp : pat.all (fun c => !regexSpecialChar c) = true) :
    ∀ text, reSearch pat text = hasSubChars text pat := by
  intro text
  induction text with
  | nil =>
    show reMatchHere pat [] = pat.isEmpty
    cases pat <;> rfl
  | cons c cs ih =>
    show (reMatchHere pat (c :: cs) || reSearch pat cs) =
      (startsWithChars (c :: cs) pat || hasSubChars cs pat)
    rw [reMatchHere_literal pat hp, ih]

/-- Counterexample to C5 as stated: `str.contains` interprets the line
filter as a regular expression, so the filter `"r.ta"` returns the
`"Ruta 60"` row even though the lowered line does not contain `"r.ta"` as a
substring — the result is not "exactly the trips whose line contains
`lineFilter` as a case-insensitive substring". -/
theorem c5_substring_counterexample :
    buscar_horarios [⟨"Ruta 60", "Ida", 10, 20⟩] 0
        ⟨none, none, none, none, none, false, some "r.ta"⟩ =
      [⟨"Ruta 60", "Ida", 10, 20⟩] ∧
    strContainsSub (lowerStr "r.ta") (lowerStr "Ruta 60") = false := by decide

/-- C5 (amended): with a non-empty `micro_linea`, the result is a
permutation (sorted ascending by departure) of the rows whose lowered line
matches the lowered filter as a regular-expression search, restricted to an
exact case-insensitive direction match when `direccion` is set; the result
does not depend on the current instant (no departed-trip exclusion); and
whenever the filter contains no regex metacharacter the regex search is
exactly case-insensitive substring containment. -/
theorem c5_line_filter_branch (df : List Trip) (now : Nat) (s : String) (hs : s ≠ "")
    (dir hora acc ch : Option String) (cnt : Option Int) (lst : Bool) :
    (buscar_horarios df now ⟨dir, hora, acc, ch, cnt, lst, some s⟩).Perm
      (if optTruthy dir then
         (df.filter (fun t => reSearch (lowerStr s).data (lowerStr t.linea).data)).filter
           (fun t => lowerStr t.direccion = lowerStr (dir.getD ""))
       else df.filter (fun t => reSearch (lowerStr s).data (lowerStr t.linea).data)) ∧
    List.Pairwise (fun a b => a.salida ≤ b.salida)
      (buscar_horarios df now ⟨dir, hora, acc, ch, cnt, lst, some s⟩) ∧
    (∀ now2 : Nat,
      buscar_horarios df now2 ⟨dir, hora, acc, ch, cnt, lst, some s⟩ =
        buscar_horarios df now ⟨dir, hora, acc, ch, cnt, lst, some s⟩) ∧
    (regexLiteralStr s = true →
      (buscar_horarios df now ⟨dir, hora, acc, ch, cnt, lst, some s⟩).Perm
        (if optTruthy dir then
           (df.filter (fun t => strContainsSub (lowerStr s) (lowerStr t.linea))).filter
             (fun t => lowerStr t.direccion = lowerStr (dir.getD ""))
         else df.filter (fun t => strContainsSub (lowerStr s) (lowerStr t.linea)))) := by
  have hmain : (buscar_horarios df now ⟨dir, hora, acc, ch, cnt, lst, some s⟩).Perm
      (if optTruthy dir then
         (df.filter (fun t => reSearch (lowerStr s).data (lowerStr t.linea).data)).filter
           (fun t => lowerStr t.direccion = lowerStr (dir.getD ""))
       else df.filter (fun t => reSearch (lowerStr s).data (lowerStr t.linea).data)) := by
    by_cases hdf : df.isEmpty = true
    · rw [List.isEmpty_iff.mp hdf]
      simp [buscar_horarios]
    · rw [Bool.not_eq_true] at hdf
      rw [buscar_line_eq df now dir hora acc ch cnt lst s hs]
      simp only [hdf, Bool.false_eq_true, if_false]
      exact perm_sortByKey _ _
  refine ⟨hmain, ?_, ?_, ?_⟩
  · by_cases hdf : df.isEmpty = true
    · rw [List.isEmpty_iff.mp hdf]
      simp [buscar_horarios]
    · rw [Bool.not_eq_true] at hdf
      rw [buscar_line_eq df now dir hora acc ch cnt lst s hs]
      simp only [hdf, Bool.false_eq_true, if_false]
      exact pairwise_sortByKey _ _
  · intro now2
    rw [buscar_line_eq df now2 dir hora acc ch cnt lst s hs,
      buscar_line_eq df now dir hora acc ch cnt lst s hs]
  · intro hlit
    have hfe : df.filter (fun t => strContainsSub (lowerStr s) (lowerStr t.linea)) =
        df.filter (fun t => reSearch (lowerStr s).data (lowerStr t.linea).data) :=
      List.filter_congr fun x _ =>
        (reSearch_literal (lowerStr s).data (regexLiteral_lowerStr hlit)
          (lowerStr x.linea).data).symm
    rw [hfe]
    exact hmain

/-- Witness for C5 (amended): the `"60"` filter (no metacharacters) on a
two-line store returns exactly the `"Ruta 60"` row. -/
theorem c5_line_filter_branch_witness :
    (buscar_horarios [⟨"Ruta 60", "Ida", 10, 20⟩, ⟨"Ruta 12", "Vuelta", 5, 15⟩] 0
        ⟨none, none, none, none, none, false, some "60"⟩).Perm
      (if optTruthy (none : Option String) then
         ([⟨"Ruta 60", "Ida", 10, 20⟩, ⟨"Ruta 12", "Vuelta", 5, 15⟩].filter
           (fun t => strContainsSub (lowerStr "60") (lowerStr t.linea))).filter
           (fun t => lowerStr t.direccion = lowerStr ((none : Option String).getD ""))
       else [⟨"Ruta 60", "Ida", 10, 20⟩, ⟨"Ruta 12", "Vuelta", 5, 15⟩].filter
         (fun t => strContainsSub (lowerStr "60") (lowerStr t.linea))) :=
  (c5_line_filter_branch [⟨"Ruta 60", "Ida", 10, 20⟩, ⟨"Ruta 12", "Vuelta", 5, 15⟩] 0
    "60" (by decide) none none none none none false).2.2.2 (by decide)

/-! ### Dynamic (untyped) view of the intent dictionary

`buscar_horarios` receives a JSON-decoded dictionary whose values can have
any shape.  The following embedding tracks Python's dynamic typing and the
exceptions the source can raise: the only `try/except` (lines 105/157)
catches `ValueError` alone, so `TypeError` from `strptime`/`head` and
`AttributeError` from `.lower()` escape to the caller. -/

/-- Dynamic values as decoded from the resolver's JSON: `None`, strings,
integers, booleans and lists. -/
inductive Value where
  | vnone
  | vstr (s : String)
  | vint (n : Int)
  | vbool (b : Bool)
  | vlist (l : List Value)
deriving Repr

/-- The Python exceptions that can escape `buscar_horarios`. -/
inductive PyErr where
  | typeError
  | attributeError
deriving Repr, DecidableEq

/-- Python truthiness of a dynamic value. -/
def pyTruthy : Value → Bool
  | .vnone => false
  | .vstr s => !s.data.isEmpty
  | .vint n => n != 0
  | .vbool b => b
  | .vlist l => !l.isEmpty

/-- `.lower()`: only strings have it; any other receiver raises
`AttributeError`. -/
def pyLower : Value → Except PyErr String
  | .vstr s => .ok (lowerStr s)
  | _ => .error .attributeError

/-- Lines 67-70: `isinstance(x, list) and len(x) > 0` replaces the value by
its first element. -/
def normalizeScalarOrList : Value → Value
  | .vlist (v :: _) => v
  | v => v

/-- Python `==` between a dynamic value and a string literal. -/
def pyEqStr (v : Value) (s : String) : Bool :=
  match v with
  | .vstr t => t = s
  | _ => false

/-- `x is None`. -/
def isVNone : Value → Bool
  | .vnone => true
  | _ => false

/-- `DataFrame.head` with a dynamic argument: only proper integers slice;
every other shape raises `TypeError`.  In particular booleans raise even
though Python `bool` subclasses `int`: `head` slices with `iloc[:n]`, whose
positional-indexer validation uses `lib.is_integer`, which returns `False`
for booleans. -/
def pandasHeadV : Value → List Trip → Except PyErr (List Trip)
  | .vint n, l => .ok (pandasHead n l)
  | _, _ => .error .typeError

/-- `datetime.strptime(hora_str, '%H:%M')` on a dynamic value: a non-string
first argument raises `TypeError` (not caught by line 157's
`except ValueError`); a string either parses or raises the caught
`ValueError`, encoded as `.ok none`. -/
def strptimeHM : Value → Except PyErr (Option Nat)
  | .vstr s => .ok (parseHM s)
  | _ => .error .typeError

/-- The intent dictionary as read on lines 58-64, with dynamic values. -/
structure DynIntent where
  direccion : Value
  hora : Value
  accion : Value
  condicion_horario : Value
  cantidad : Value
  listado_completo : Value
  micro_linea : Value
deriving Repr

/-- The engine over the dynamic intent dictionary (`src/Main.py` lines
43-160), with Python's exception behavior made explicit: the result is
`.error e` exactly when the source would raise `e` to its caller. -/
def buscar_horarios_dyn (df : List Trip) (now : Nat) (i : DynIntent) :
    Except PyErr (List Trip) :=
  if df.isEmpty then .ok [] else
  let direccion := normalizeScalarOrList i.direccion
  let micro_linea := normalizeScalarOrList i.micro_linea
  if pyTruthy micro_linea then
    match pyLower micro_linea with
    | .error e => .error e
    | .ok ml =>
      let df1 := df.filter (fun t => reSearch ml.data (lowerStr t.linea).data)
      if pyTruthy direccion then
        match pyLower direccion with
        | .error e => .error e
        | .ok dl =>
          .ok (sortByKey (fun t => t.salida)
            (df1.filter (fun t => lowerStr t.direccion = dl)))
      else .ok (sortByKey (fun t => t.salida) df1)
  else if !pyTruthy direccion then .ok []
  else
    match pyLower direccion with
    | .error e => .error e
    | .ok dl =>
      let pool := (df.filter (fun t => lowerStr t.direccion = dl)).filter
        (fun t => now < t.salida)
      if pyEqStr i.hora "ahora" then
        let proximos := sortByKey (fun t => t.salida) pool
        if pyTruthy i.listado_completo then .ok proximos
        else if !isVNone i.cantidad then pandasHeadV i.cantidad proximos
        else .ok (proximos.take 3)
      else if pyTruthy i.hora then
        match strptimeHM i.hora with
        | .error e => .error e
        | .ok none => .ok []
        | .ok (some T) =>
          if pyEqStr i.condicion_horario "cerca" then
            let micros_antes := pool.filter (fun t => t.llegada ≤ T)
            let micros_despues := pool.filter (fun t => T < t.llegada)
            let r1 :=
              if micros_antes.isEmpty then []
              else (sortByKeyDesc (fun t => t.llegada) micros_antes).take 1
            let r2 :=
              if micros_despues.isEmpty then []
              else (sortByKey (fun t => t.llegada) micros_despues).take 1
            .ok (sortByKey (fun t => t.llegada) (r1 ++ r2))
          else if pyEqStr i.condicion_horario "antes_de" then
            let cercanos :=
              sortByKey (diffKey T) (pool.filter (fun t => t.llegada < T))
            if pyTruthy i.listado_completo then .ok cercanos
            else if !isVNone i.cantidad then pandasHeadV i.cantidad cercanos
            else .ok cercanos
          else if pyEqStr i.condicion_horario "despues_de" then
            let cercanos :=
              sortByKey (diffKey T) (pool.filter (fun t => T ≤ t.llegada))
            if pyTruthy i.listado_completo then .ok cercanos
            else if !isVNone i.cantidad then pandasHeadV i.cantidad cercanos
            else .ok cercanos
          else .ok []
      else .ok []

/-- Typed projection of a dynamic value to an optional string. -/
def valToOptStr : Value → Option String
  | .vstr s => some s
  | _ => none

/-- Typed projection of a dynamic value to an optional integer: exactly the
shapes `head` accepts as a count (booleans are excluded because pandas'
positional-indexer validation rejects them). -/
def valToOptInt : Value → Option Int
  | .vint n => some n
  | _ => none

/-- Typed projection of a dynamic intent, including the scalar-or-list
normalization of lines 67-70. -/
def toIntent (i : DynIntent) : Intent :=
  ⟨valToOptStr (normalizeScalarOrList i.direccion),
   valToOptStr i.hora,
   valToOptStr i.accion,
   valToOptStr i.condicion_horario,
   valToOptInt i.cantidad,
   pyTruthy i.listado_completo,
   valToOptStr (normalizeScalarOrList i.micro_linea)⟩

/-- Shapes of `direccion` / `micro_linea` the engine tolerates without
raising: absent, a string, an empty list, or a list whose first element is
a string. -/
def strLikeOk : Value → Bool
  | .vnone => true
  | .vstr _ => true
  | .vlist [] => true
  | .vlist (.vstr _ :: _) => true
  | _ => false

/-- Shapes of `hora` that do not make `strptime` raise `TypeError`:
absent or a string. -/
def horaOk : Value → Bool
  | .vnone => true
  | .vstr _ => true
  | _ => false

/-- Shapes of `cantidad` that do not make `head` raise `TypeError`: absent
or a proper integer.  Booleans are not included: although Python `bool`
subclasses `int`, `head(True)` raises `TypeError` because `iloc`'s
positional-slice validation (`lib.is_integer`) rejects booleans. -/
def cantidadOk : Value → Bool
  | .vnone => true
  | .vint _ => true
  | _ => false

/-- The pattern handed to `str.contains` when the line-filter branch runs. -/
def microPat (i : DynIntent) : String :=
  match normalizeScalarOrList i.micro_linea with
  | .vstr s => s
  | _ => ""

theorem strLikeOk_cases {v : Value} (h : strLikeOk v = true) :
    v = .vnone ∨ v = .vlist [] ∨ (∃ s, v = .vstr s) ∨
      ∃ s l, v = .vlist (.vstr s :: l) := by
  cases v with
  | vnone => exact Or.inl rfl
  | vstr s => exact Or.inr (Or.inr (Or.inl ⟨s, rfl⟩))
  | vint n => cases h
  | vbool b => cases h
  | vlist l =>
    cases l with
    | nil => exact Or.inr (Or.inl rfl)
    | cons x xs =>
      cases x with
      | vstr s => exact Or.inr (Or.inr (Or.inr ⟨s, xs, rfl⟩))
      | vnone => cases h
      | vint n => cases h
      | vbool b => cases h
      | vlist m => cases h

theorem horaOk_cases {v : Value} (h : horaOk v = true) :
    v = .vnone ∨ ∃ s, v = .vstr s := by
  cases v with
  | vnone => exact Or.inl rfl
  | vstr s => exact Or.inr ⟨s, rfl⟩
  | vint n => cases h
  | vbool b => cases h
  | vlist l => cases h

theorem cantidadOk_cases {v : Value} (h : cantidadOk v = true) :
    v = .vnone ∨ ∃ n, v = .vint n := by
  cases v with
  | vnone => exact Or.inl rfl
  | vstr s => cases h
  | vint n => exact Or.inr ⟨n, rfl⟩
  | vbool b => cases h
  | vlist l => cases h

theorem pyEqStr_eq (v : Value) (s : String) :
    pyEqStr v s = decide (valToOptStr v = some s) := by
  cases v <;> simp [pyEqStr, valToOptStr]

/-- Counterexample to C6 as stated: with a well-formed store and direction
but `hora` equal to the integer 15, `strptime` raises `TypeError`, which
line 157's `except ValueError` does not catch — the engine raises to its
caller instead of returning an empty MatchSet. -/
theorem c6_raises_counterexample :
    buscar_horarios_dyn [⟨"Ruta 60", "Ida", 100, 200⟩] 0
      ⟨.vstr "Ida", .vint 15, .vnone, .vnone, .vnone, .vbool false, .vnone⟩ =
      .error .typeError := rfl

set_option maxHeartbeats 2000000 in
/-- C6 (amended): for every store, instant, and intent whose fields are
schema-typed — `direccion`/`micro_linea` absent, a string, or a list headed
by a string; `hora` absent or a string; `cantidad` absent or a proper
integer (not a boolean, which `head` rejects) — and whose effective line
filter has no regex metacharacter, the engine raises no exception: the
dynamic run returns exactly the typed model's MatchSet (in particular the
malformed-literal-time `ValueError` is swallowed into an empty result, and
partial intents degrade to empty
results rather than raising). -/
theorem c6_welltyped_never_raises (df : List Trip) (now : Nat) (i : DynIntent)
    (h1 : strLikeOk i.direccion = true) (h2 : strLikeOk i.micro_linea = true)
    (h3 : horaOk i.hora = true) (h4 : cantidadOk i.cantidad = true)
    (h5 : regexLiteralStr (microPat i) = true) :
    buscar_horarios_dyn df now i = .ok (buscar_horarios df now (toIntent i)) := by
  clear h5
  obtain ⟨vdir, vhora, vacc, vch, vcnt, vlst, vml⟩ := i
  simp only at h1 h2 h3 h4
  rcases strLikeOk_cases h1 with rfl | rfl | ⟨d, rfl⟩ | ⟨d, dtl, rfl⟩ <;>
    rcases strLikeOk_cases h2 with rfl | rfl | ⟨m, rfl⟩ | ⟨m, mtl, rfl⟩ <;>
    rcases cantidadOk_cases h4 with rfl | ⟨n, rfl⟩ <;>
    rcases horaOk_cases h3 with rfl | ⟨hs, rfl⟩ <;>
    first
    | (cases hp : parseHM hs <;>
        simp only [buscar_horarios_dyn, buscar_horarios, toIntent,
          normalizeScalarOrList, valToOptStr, valToOptInt, pyTruthy, optTruthy,
          pyLower, strptimeHM, pyEqStr_eq, isVNone, pandasHeadV, hp,
          decide_eq_true_eq, Bool.not_not, Bool.not_true, Bool.not_false,
          Bool.false_eq_true, if_false, if_true, Option.getD_some, List.isEmpty_nil,
          apply_ite (Except.ok (ε := PyErr) (α := List Trip)),
          apply_ite (sortByKey (fun t => t.salida))])
    | simp only [buscar_horarios_dyn, buscar_horarios, toIntent,
        normalizeScalarOrList, valToOptStr, valToOptInt, pyTruthy, optTruthy,
        pyLower, strptimeHM, pyEqStr_eq, isVNone, pandasHeadV,
        decide_eq_true_eq, Bool.not_not, Bool.not_true, Bool.not_false,
        Bool.false_eq_true, if_false, if_true, Option.getD_some, List.isEmpty_nil,
        apply_ite (Except.ok (ε := PyErr) (α := List Trip)),
        apply_ite (sortByKey (fun t => t.salida))]

/-- Witness for C6 (amended) at a concrete schema-typed intent: the
dynamic run succeeds with the typed model's result. -/
theorem c6_welltyped_never_raises_witness :
    buscar_horarios_dyn [⟨"Ruta 60", "Ida", 100, 200⟩] 50
        ⟨.vstr "Ida", .vstr "ahora", .vnone, .vnone, .vnone, .vbool false, .vnone⟩ =
      .ok (buscar_horarios [⟨"Ruta 60", "Ida", 100, 200⟩] 50
        (toIntent ⟨.vstr "Ida", .vstr "ahora", .vnone, .vnone, .vnone, .vbool false,
          .vnone⟩)) :=
  c6_welltyped_never_raises [⟨"Ruta 60", "Ida", 100, 200⟩] 50
    ⟨.vstr "Ida", .vstr "ahora", .vnone, .vnone, .vnone, .vbool false, .vnone⟩
    (by decide) (by decide) (by decide) (by decide) (by decide)

/-! ### Frame model: the store is never mutated

The operations `buscar_horarios` performs on its argument frame are
`df.empty` (line 54) and boolean-mask selections `df[...]` (lines 74, 85);
pandas boolean-mask selection builds a new frame and leaves its receiver
unchanged, and the `.copy()` calls plus the derived-column assignments
(lines 88-89, 133, 147) target only the fresh copies (the derived
`salida_datetime`/`llegada_datetime`/`diff` columns are functions of
`Salida`/`Llegada` and are kept as computed keys).  The state-passing
embedding below makes the store an explicit state threaded through those
operations and returns the final store next to the result. -/

/-- `df.empty`: a read; returns the store unchanged. -/
def dfEmpty (df : List Trip) : Bool × List Trip := (df.isEmpty, df)

/-- Boolean-mask selection `df[mask]`: a new frame of the matching rows,
receiver unchanged. -/
def dfSelect (p : Trip → Bool) (df : List Trip) : List Trip × List Trip :=
  (df.filter p, df)

/-- `.copy()`: a fresh frame with the same rows. -/
def dfCopy (f : List Trip) : List Trip := f

/-- State-passing embedding of `buscar_horarios`: the same computation with
every operation on the argument store threaded explicitly, returning the
final store alongside the result. -/
def buscar_horarios_st (df : List Trip) (now : Nat) (i : Intent) :
    List Trip × List Trip :=
  let e := dfEmpty df
  if e.1 then ([], e.2) else
  let df1 := e.2
  if optTruthy i.micro_linea then
    let s1 := dfSelect
      (fun t => reSearch (lowerStr (i.micro_linea.getD "")).data
        (lowerStr t.linea).data) df1
    let df_filtrado := dfCopy s1.1
    let df2 := s1.2
    let df_filtrado2 :=
      if optTruthy i.direccion then
        dfCopy (dfSelect (fun t => lowerStr t.direccion =
          lowerStr (i.direccion.getD "")) df_filtrado).1
      else df_filtrado
    (sortByKey (fun t => t.salida) df_filtrado2, df2)
  else if !optTruthy i.direccion then ([], df1)
  else
    let s2 := dfSelect
      (fun t => lowerStr t.direccion = lowerStr (i.direccion.getD "")) df1
    let df_filtrado := dfCopy s2.1
    let df3 := s2.2
    let pool := (dfSelect (fun t => now < t.salida) df_filtrado).1
    let res :=
      if i.hora = some "ahora" then
        let proximos := sortByKey (fun t => t.salida) pool
        if i.listado_completo then proximos
        else
          match i.cantidad with
          | some n => pandasHead n proximos
          | none => proximos.take 3
      else if optTruthy i.hora then
        match parseHM (i.hora.getD "") with
        | none => []
        | some T =>
          if i.condicion_horario = some "cerca" then
            let micros_antes := (dfSelect (fun t => t.llegada ≤ T) pool).1
            let micros_despues := (dfSelect (fun t => T < t.llegada) pool).1
            let r1 :=
              if micros_antes.isEmpty then []
              else (sortByKeyDesc (fun t => t.llegada) micros_antes).take 1
            let r2 :=
              if micros_despues.isEmpty then []
              else (sortByKey (fun t => t.llegada) micros_despues).take 1
            sortByKey (fun t => t.llegada) (r1 ++ r2)
          else if i.condicion_horario = some "antes_de" then
            let cercanos :=
              sortByKey (diffKey T) ((dfSelect (fun t => t.llegada < T) pool).1)
            if i.listado_completo then cercanos
            else
              match i.cantidad with
              | some n => pandasHead n cercanos
              | none => cercanos
          else if i.condicion_horario = some "despues_de" then
            let cercanos :=
              sortByKey (diffKey T) ((dfSelect (fun t => T ≤ t.llegada) pool).1)
            if i.listado_completo then cercanos
            else
              match i.cantidad with
              | some n => pandasHead n cercanos
              | none => cercanos
          else []
      else []
    (res, df3)

/-- C10: a call leaves the schedule store unchanged — the final store of
the state-passing run is the argument store, and its result is the plain
model's result (all filtering and derived-column work happens on copies). -/
theorem c10_store_unchanged (df : List Trip) (now : Nat) (i : Intent) :
    (buscar_horarios_st df now i).2 = df ∧
    (buscar_horarios_st df now i).1 = buscar_horarios df now i := by
  constructor
  · simp only [buscar_horarios_st, dfEmpty, dfSelect, dfCopy,
      apply_ite (Prod.snd (α := List Trip) (β := List Trip)), ite_self]
  · simp only [buscar_horarios_st, buscar_horarios, dfEmpty, dfSelect, dfCopy,
      apply_ite (Prod.fst (α := List Trip) (β := List Trip))]
